import Mathlib

/-!
Shallow embedding of `zeroinstall/injector/run.py` (0install launcher core).

The Python module applies environment bindings declared by a resolution
("selections"), resolves the on-disk location of the chosen main executable,
and either replaces the process image, prints a dry-run plan, or runs the
whole pipeline in a forked child with captured output (`test_selections`).

Modelling conventions:
* the mutable process environment `os.environ` is passed explicitly as an
  ordered association list `Env`;
* Python exceptions become `Except RunError`;
* the filesystem (`os.path.exists`, success of `os.execl`) and the
  content-addressed store are explicit parameters;
* Python truthiness of strings (`None` and `""` are falsy) is modelled by
  `pyTruthyO` / `pyTruthyS`, and `a or b` on optional strings by `pyOr`.
-/

deriving instance DecidableEq for Except

/-- The process environment (`os.environ`), as an ordered key-value list. -/
abbrev Env := List (String × String)

/-- The content-addressed store: digest to stored-path mapping. -/
abbrev Stores := List (String × String)

def envGet (env : Env) (name : String) : Option String :=
  match List.find? (fun kv => kv.1 == name) env with
  | some kv => some kv.2
  | none => none

def envSet (env : Env) (name value : String) : Env :=
  if List.any env (fun kv => kv.1 == name) then
    List.map (fun kv => if kv.1 == name then (name, value) else kv) env
  else
    env ++ [(name, value)]

/-- Python `s.startswith(pre)`, on the code points of the strings. -/
def strStartsWith (s pre : String) : Bool := List.isPrefixOf pre.data s.data

/-- Python `s.endswith(suf)`, on the code points of the strings. -/
def strEndsWith (s suf : String) : Bool := List.isSuffixOf suf.data s.data

/-- Python truthiness of a string: `""` is falsy. -/
def pyTruthyS (s : String) : Bool := s != ""

/-- Python truthiness of an optional string: `None` and `""` are falsy. -/
def pyTruthyO : Option String → Bool
  | none => false
  | some s => pyTruthyS s

/-- The string carried by an optional string (used only under a truthiness
guard, where Python would have a real string at hand). -/
def strOfOpt : Option String → String
  | none => ""
  | some s => s

/-- Python `a or b` on optional strings. -/
def pyOr (a b : Option String) : Option String :=
  if pyTruthyO a then a else b

/-- `posixpath.join` for two components: an absolute second component wins;
otherwise the components are concatenated with a separator unless the first
is empty or already ends in one. -/
def ospath_join (a b : String) : String :=
  if strStartsWith b "/" then b
  else if a = "" || strEndsWith a "/" then a ++ b
  else a ++ "/" ++ b

/-- End position (exclusive) of the last `/` in the list, i.e. Python
`p.rfind(sep) + 1` (0 when there is no separator). -/
def lastSepEnd : List Char → Nat → Nat → Nat
  | [], _, best => best
  | c :: cs, i, best => lastSepEnd cs (i + 1) (if c = '/' then i + 1 else best)

/-- `posixpath.dirname`: everything before the last `/`, with trailing
separators stripped unless the head consists only of separators. -/
def ospath_dirname (p : String) : String :=
  let l := p.data
  let head := List.take (lastSepEnd l 0 0) l
  if head.isEmpty || head.all (fun c => c = '/') then String.mk head
  else String.mk (List.reverse (List.dropWhile (fun c => c = '/') (List.reverse head)))

/-- Insert mode of an environment binding (see `EnvironmentBinding.get_value`). -/
inductive InsertMode : Type
  | replace
  | prepend
  | append
deriving DecidableEq

/-- An environment binding: target variable name, insert mode, separator and
the default used when the variable is currently unset. -/
structure EnvironmentBinding : Type where
  name : String
  mode : InsertMode
  separator : String
  default_value : Option String
deriving DecidableEq

/-- Modelled from the spec: `EnvironmentBinding.get_value` lives in
`zeroinstall/injector/model.py`, which is not among the sources here. The
spec describes it as computing the new value for the variable from the
implementation path and the variable's current value (or the configured
default when the variable is unset), replacing, prepending or appending
with the configured separator. -/
def EnvironmentBinding.get_value (b : EnvironmentBinding) (path : String)
    (current : Option String) : String :=
  let cur := match current with
    | some c => some c
    | none => b.default_value
  match b.mode with
  | InsertMode.replace => path
  | InsertMode.prepend =>
    match cur with
    | some c => path ++ b.separator ++ c
    | none => path
  | InsertMode.append =>
    match cur with
    | some c => c ++ b.separator ++ path
    | none => path

/-- A binding declaration; `run.py` only acts on the environment variant
(the `isinstance(b, EnvironmentBinding)` check). -/
inductive Binding : Type
  | env (b : EnvironmentBinding)
  | other (kind : String)
deriving DecidableEq

/-- A runtime requirement of a selection: the interface it references plus
the bindings declared on the dependency itself. -/
structure Dependency : Type where
  interface : String
  bindings : List Binding
deriving DecidableEq

/-- One chosen implementation: opaque id (host packages carry a `package:`
prefix), optional local path, digests for store lookup, own bindings and
dependencies. -/
structure Selection : Type where
  id : String
  local_path : Option String
  digests : List String
  bindings : List Binding
  dependencies : List Dependency
deriving DecidableEq

/-- The root's chosen command: relative executable path plus the command's
own required dependencies. -/
structure Command : Type where
  path : Option String
  requires : List Dependency
deriving DecidableEq

/-- A resolution: interface-keyed ordered map of selections, the root
interface, and the root's chosen command. -/
structure Selections : Type where
  selections : List (String × Selection)
  interface : String
  command : Command
deriving DecidableEq

/-- The exceptions `run.py` can raise (including those propagated from the
store lookup and from dictionary access). -/
inductive RunError : Type
  | storeLookup (digests : List String)
  | keyError (interface : String)
  | invalidCommandPath (path : String)
  | notExecutable (implId : String)
  | missingProgram (path : String) (implId : String) (main : String)
  | nameError
  | launchFailed (path : String)
deriving DecidableEq

/-- First digest of the list that the store can resolve. -/
def storeFind (stores : Stores) : List String → Option String
  | [] => none
  | d :: ds =>
    match List.find? (fun kv => kv.1 == d) stores with
    | some kv => some kv.2
    | none => storeFind stores ds

/-- Modelled from the spec: `iface_cache.stores.lookup_any` belongs to
`zeroinstall.zerostore`, which is not among the sources here. The spec
describes the store as: given a set of digests, return a local path
(the first matching stored path), or fail if absent. -/
def lookup_any (stores : Stores) (digests : List String) : Except RunError String :=
  match storeFind stores digests with
  | some path => Except.ok path
  | none => Except.error (RunError.storeLookup digests)

/-- `run.py` line 47: `impl.local_path or iface_cache.stores.lookup_any(impl.digests)`.
Python `or` falls through to the store lookup when `local_path` is `None`
or the empty string. -/
def _get_implementation_path (stores : Stores) (impl : Selection) :
    Except RunError String :=
  match impl.local_path with
  | some p => if pyTruthyS p then Except.ok p else lookup_any stores impl.digests
  | none => lookup_any stores impl.digests

/-- `run.py` line 15: apply one environment binding against an
implementation path, updating the process environment. -/
def do_env_binding (binding : EnvironmentBinding) (path : String) (env : Env) : Env :=
  envSet env binding.name (binding.get_value path (envGet env binding.name))

/-- `run.py` line 42: apply each environment binding of the list against the
implementation's resolved path (resolved per binding, as in the source). -/
def _do_bindings (stores : Stores) (impl : Selection) :
    List Binding → Env → Except RunError Env
  | [], env => Except.ok env
  | Binding.env b :: bs, env =>
    match _get_implementation_path stores impl with
    | Except.ok path => _do_bindings stores impl bs (do_env_binding b path env)
    | Except.error e => Except.error e
  | Binding.other _ :: bs, env => _do_bindings stores impl bs env

/-- Python dictionary lookup `sels[iface]` (raises `KeyError` when absent). -/
def lookupSel (sels : List (String × Selection)) (iface : String) :
    Except RunError Selection :=
  match List.find? (fun kv => kv.1 == iface) sels with
  | some kv => Except.ok kv.2
  | none => Except.error (RunError.keyError iface)

/-- The dependency-binding loop of `execute_selections` (lines 108-111 and
120-123): for each dependency, look up its selection and apply the
dependency's bindings against the dependency's path unless the selection's
id starts with `package:`. -/
def applyDepBindings (stores : Stores) (sels : List (String × Selection)) :
    List Dependency → Env → Except RunError Env
  | [], env => Except.ok env
  | dep :: deps, env =>
    match lookupSel sels dep.interface with
    | Except.error e => Except.error e
    | Except.ok dep_impl =>
      if strStartsWith dep_impl.id "package:" then
        applyDepBindings stores sels deps env
      else
        match _do_bindings stores dep_impl dep.bindings env with
        | Except.error e => Except.error e
        | Except.ok env1 => applyDepBindings stores sels deps env1

/-- The per-selection loop of `execute_selections` (lines 106-111), iterated
over the given items while dependency lookups go through the full map. -/
def bindingPassAux (stores : Stores) (sels : List (String × Selection)) :
    List (String × Selection) → Env → Except RunError Env
  | [], env => Except.ok env
  | item :: rest, env =>
    match _do_bindings stores item.2 item.2.bindings env with
    | Except.error e => Except.error e
    | Except.ok env1 =>
      match applyDepBindings stores sels item.2.dependencies env1 with
      | Except.error e => Except.error e
      | Except.ok env2 => bindingPassAux stores sels rest env2

/-- `execute_selections` lines 105-111: the general pass over every
selection of the resolution. -/
def bindingPass (stores : Stores) (sels : List (String × Selection)) (env : Env) :
    Except RunError Env :=
  bindingPassAux stores sels sels env

/-- `execute_selections` lines 125-142: compute the effective `main` and the
program path from the root selection, `command.path` and the user override. -/
def resolveProg (stores : Stores) (root_sel : Selection)
    (command_path main : Option String) :
    Except RunError (Option String × Option String) :=
  if strStartsWith root_sel.id "package:" then
    Except.ok (pyOr main command_path, pyOr main command_path)
  else if pyTruthyO command_path && strStartsWith (strOfOpt command_path) "/" then
    Except.error (RunError.invalidCommandPath (strOfOpt command_path))
  else
    let main1 :=
      match main with
      | none => command_path
      | some m =>
        if strStartsWith m "/" then some (String.drop m 1)
        else if pyTruthyO command_path then
          some (ospath_join (ospath_dirname (strOfOpt command_path)) m)
        else some m
    match main1 with
    | none => Except.ok (none, none)
    | some m =>
      match _get_implementation_path stores root_sel with
      | Except.ok impl => Except.ok (some m, some (ospath_join impl m))
      | Except.error e => Except.error e

/-- Filesystem view: which paths exist (`os.path.exists`) and which ones
`os.execl` can actually start. -/
structure FS : Type where
  existing : List String
  runnable : List String
deriving DecidableEq

def os_path_exists (fs : FS) (p : String) : Bool := List.contains fs.existing p

def execl_ok (fs : FS) (p : String) : Bool := List.contains fs.runnable p

/-- What the end of `execute_selections` does once a program path has been
computed: either the process image is replaced, or (dry run) a message is
printed and the call returns normally. -/
inductive ExecOutcome : Type
  | execed (prog : String) (args : List String)
  | driedRun (message : String)
deriving DecidableEq

/-- `execute_selections` lines 144-168: the `main is None` defensive check,
the on-disk existence check, the wrapper rewrite, and the final dry-run or
`os.execl` step. -/
def finishLaunch (fs : FS) (root_sel : Selection) (main prog_path : Option String)
    (prog_args : List String) (dry_run : Bool) (wrapper : Option String) :
    Except RunError ExecOutcome :=
  match main with
  | none => Except.error (RunError.notExecutable root_sel.id)
  | some m =>
    match prog_path with
    | none => Except.error RunError.nameError
    | some prog0 =>
      if !(os_path_exists fs prog0) then
        Except.error (RunError.missingProgram prog0 root_sel.id m)
      else
        let pair :=
          if pyTruthyO wrapper then
            ("/bin/sh",
              ["-c", strOfOpt wrapper ++ " \"$@\"", "-", prog0] ++ prog_args)
          else (prog0, prog_args)
        if dry_run then
          Except.ok (ExecOutcome.driedRun
            ("Would execute: " ++ String.intercalate " " (pair.1 :: pair.2)))
        else if execl_ok fs pair.1 then
          Except.ok (ExecOutcome.execed pair.1 pair.2)
        else
          Except.error (RunError.launchFailed pair.1)

/-- `run.py` line 89, `execute_selections`: bindings pass, root lookup,
command-requirements pass, program resolution, launch. Returns the final
environment together with the launch outcome. -/
def execute_selections (fs : FS) (stores : Stores) (selections : Selections)
    (prog_args : List String) (dry_run : Bool) (main wrapper : Option String)
    (env : Env) : Except RunError (Env × ExecOutcome) :=
  match bindingPass stores selections.selections env with
  | Except.error e => Except.error e
  | Except.ok env1 =>
    match lookupSel selections.selections selections.interface with
    | Except.error e => Except.error e
    | Except.ok root_sel =>
      match applyDepBindings stores selections.selections
          selections.command.requires env1 with
      | Except.error e => Except.error e
      | Except.ok env2 =>
        match resolveProg stores root_sel selections.command.path main with
        | Except.error e => Except.error e
        | Except.ok mp =>
          match finishLaunch fs root_sel mp.1 mp.2 prog_args dry_run wrapper with
          | Except.error e => Except.error e
          | Except.ok outcome => Except.ok (env2, outcome)

/-- Textual description of an exception, without surrounding quotes. -/
def errorDescription : RunError → String
  | RunError.storeLookup ds => "NotStored: " ++ String.intercalate ", " ds
  | RunError.keyError i => "KeyError: " ++ i
  | RunError.invalidCommandPath p =>
    "Command path must be relative, but " ++ p ++ " starts with /!"
  | RunError.notExecutable i =>
    "Implementation " ++ i ++ " cannot be executed directly; it is just a library " ++
      "to be used by other programs (or missing main attribute)"
  | RunError.missingProgram p i m =>
    "File " ++ p ++ " does not exist. (implementation " ++ i ++ " + program " ++ m ++ ")"
  | RunError.nameError => "NameError: prog_path"
  | RunError.launchFailed p => "Failed to run " ++ p

/-- The text `traceback.print_exc()` writes into the redirected stream when
`execute_selections` raises inside the forked child. -/
def traceback_text (e : RunError) : String :=
  "Traceback (most recent call last):\n" ++ errorDescription e ++ "\n"

/-- Behaviour of an external program once `os.execl` has replaced the child:
what it writes to the (still redirected) streams and its exit code. -/
structure ProgBehavior : Type where
  progOutput : String → List String → String
  progExit : String → List String → Nat

/-- The forked child of `test_selections` (lines 60-73): it runs
`execute_selections` (without wrapper) with both standard streams
redirected; an exception is printed as a traceback and the child reaches
`os._exit(1)`; a successful dry run prints its message and also reaches
`os._exit(1)`; only a successful `os.execl` replaces the image, in which
case the captured text and exit code are the external program's. -/
def childRun (w : ProgBehavior) (fs : FS) (stores : Stores) (selections : Selections)
    (prog_args : List String) (dry_run : Bool) (main : Option String)
    (env : Env) : String × Nat :=
  match execute_selections fs stores selections prog_args dry_run main none env with
  | Except.ok (_, ExecOutcome.execed p as) => (w.progOutput p as, w.progExit p as)
  | Except.ok (_, ExecOutcome.driedRun msg) => (msg ++ "\n", 1)
  | Except.error e => (traceback_text e, 1)

/-- `os.waitpid` status of a normally-terminated child: exit code (masked to
one byte) shifted left by eight bits. -/
def waitStatus (code : Nat) : Nat := (code % 256) * 256

/-- The line appended by `test_selections` when the wait status is non-zero. -/
def errLine (status : Nat) : String :=
  "Error from child process: exit code = " ++ toString status

/-- `run.py` line 50, `test_selections`: fork, capture the child's combined
output, wait for it, and return the captured text, with the explanatory
line appended exactly when the wait status is non-zero. The `wrapper`
parameter is accepted and ignored, as in the source. -/
def test_selections (w : ProgBehavior) (fs : FS) (stores : Stores)
    (selections : Selections) (prog_args : List String) (dry_run : Bool)
    (main : Option String) (_wrapper : Option String) (env : Env) : String :=
  let child := childRun w fs stores selections prog_args dry_run main env
  let status := waitStatus child.2
  if status != 0 then child.1 ++ errLine status else child.1

/-- `true` exactly when the launch replaced the process image. -/
def isExeced : Except RunError (Env × ExecOutcome) → Bool
  | Except.ok (_, ExecOutcome.execed _ _) => true
  | _ => false

/-- One binding application, as described by the spec: which environment
binding is applied, against which resolved implementation path. -/
abbrev BindingEvent := EnvironmentBinding × String

/-- Replay a list of binding applications on an environment. -/
def applyEvents : List BindingEvent → Env → Env
  | [], env => env
  | ev :: rest, env => applyEvents rest (do_env_binding ev.1 ev.2 env)

/-- Following the spec's words: the environment bindings of the list, each
paired with the owning implementation's resolved path. -/
def specEventsFor (stores : Stores) (impl : Selection) :
    List Binding → Except RunError (List BindingEvent)
  | [] => Except.ok []
  | Binding.env b :: bs =>
    match _get_implementation_path stores impl with
    | Except.error e => Except.error e
    | Except.ok p =>
      match specEventsFor stores impl bs with
      | Except.error e => Except.error e
      | Except.ok evs => Except.ok ((b, p) :: evs)
  | Binding.other _ :: bs => specEventsFor stores impl bs

/-- Following the spec's words: for each dependency in order, the
dependency's bindings against the dependency's resolved path, skipped
entirely when the dependency's selection id carries the `package:` prefix. -/
def specDepEvents (stores : Stores) (sels : List (String × Selection)) :
    List Dependency → Except RunError (List BindingEvent)
  | [] => Except.ok []
  | dep :: deps =>
    match lookupSel sels dep.interface with
    | Except.error e => Except.error e
    | Except.ok dep_impl =>
      if strStartsWith dep_impl.id "package:" then specDepEvents stores sels deps
      else
        match specEventsFor stores dep_impl dep.bindings with
        | Except.error e => Except.error e
        | Except.ok evs =>
          match specDepEvents stores sels deps with
          | Except.error e => Except.error e
          | Except.ok rest1 => Except.ok (evs ++ rest1)

/-- Following the spec's words: for each selection in resolution order, its
own bindings against its own resolved path, then its dependencies'
bindings per `specDepEvents`. -/
def specGeneralEvents (stores : Stores) (sels : List (String × Selection)) :
    List (String × Selection) → Except RunError (List BindingEvent)
  | [] => Except.ok []
  | item :: rest =>
    match specEventsFor stores item.2 item.2.bindings with
    | Except.error e => Except.error e
    | Except.ok own =>
      match specDepEvents stores sels item.2.dependencies with
      | Except.error e => Except.error e
      | Except.ok depEvs =>
        match specGeneralEvents stores sels rest with
        | Except.error e => Except.error e
        | Except.ok restEvs => Except.ok (own ++ depEvs ++ restEvs)

/-- Following the spec's words: the whole binding pass, as the general
per-selection pass followed by the dependency-binding rule applied once
more to the root command's own requirement list. -/
def specBindingEvents (stores : Stores) (s : Selections) :
    Except RunError (List BindingEvent) :=
  match specGeneralEvents stores s.selections s.selections with
  | Except.error e => Except.error e
  | Except.ok general =>
    match specDepEvents stores s.selections s.command.requires with
    | Except.error e => Except.error e
    | Except.ok cmdEvs => Except.ok (general ++ cmdEvs)

/-- The two binding-application phases of `execute_selections` (the general
pass of lines 105-111 followed by the command-requirements pass of lines
119-123), composed as the function composes them. -/
def fullBindingPhase (stores : Stores) (s : Selections) (env : Env) :
    Except RunError Env :=
  match bindingPass stores s.selections env with
  | Except.error e => Except.error e
  | Except.ok env1 => applyDepBindings stores s.selections s.command.requires env1

/-!  Concrete resolutions used by the witnesses. -/

/-- A store-backed selection with neither bindings nor dependencies. -/
def storeSel : Selection := ⟨"sha1=abc", none, ["sha1=abc"], [], []⟩

/-- A host-package-backed selection. -/
def pkgSel : Selection := ⟨"package:firefox", none, [], [], []⟩

/-- A selection with a developer-override local path. -/
def localSel : Selection := ⟨"sha1=dev", some "/dev/proj", [], [], []⟩

/-- A selection whose `local_path` is present but empty. -/
def emptyLocalSel : Selection := ⟨"sha1=abc", some "", ["sha1=abc"], [], []⟩

def sampleStores : Stores := [("sha1=abc", "/store/abc")]

/-- Root with a relative command path `bin/run`. -/
def sampleSelections : Selections :=
  ⟨[("http://example.com/prog", storeSel)], "http://example.com/prog",
    ⟨some "bin/run", []⟩⟩

/-- Root whose command has no path at all. -/
def noCommandSelections : Selections :=
  ⟨[("http://example.com/prog", storeSel)], "http://example.com/prog",
    ⟨none, []⟩⟩

/-- Root with an absolute command path. -/
def absCommandSelections : Selections :=
  ⟨[("http://example.com/prog", storeSel)], "http://example.com/prog",
    ⟨some "/bin/run", []⟩⟩

def sampleFS : FS := ⟨["/store/abc/bin/run"], ["/store/abc/bin/run", "/bin/sh"]⟩

/-- External program behaviour: silent, exits 0. -/
def wDefault : ProgBehavior := ⟨fun _ _ => "", fun _ _ => 0⟩

def bindA : EnvironmentBinding := ⟨"A_DIR", InsertMode.replace, ":", none⟩

def bindC : EnvironmentBinding := ⟨"C_PATH", InsertMode.prepend, ":", none⟩

def bindR : EnvironmentBinding := ⟨"R_PATH", InsertMode.append, ":", some "/usr"⟩

/-- Root selection of the binding-pass witness: own binding, one dependency
on a host package and one on a store-backed selection. -/
def selA : Selection :=
  ⟨"sha1=aaa", some "/loc/a", [], [Binding.env bindA],
    [⟨"I2", [Binding.env bindC]⟩, ⟨"I3", [Binding.env bindC]⟩]⟩

def selB : Selection := ⟨"package:libfoo", none, [], [], []⟩

def selC : Selection := ⟨"sha1=ccc", none, ["sha1=ccc"], [], []⟩

def c5Stores : Stores := [("sha1=ccc", "/store/ccc")]

/-- Resolution for the binding-pass witness: the command itself requires I3
with one more environment binding. -/
def c5Selections : Selections :=
  ⟨[("I1", selA), ("I2", selB), ("I3", selC)], "I1",
    ⟨some "bin/run", [⟨"I3", [Binding.env bindR]⟩]⟩⟩

def bindP : EnvironmentBinding := ⟨"PKG_HOME", InsertMode.replace, ":", none⟩

/-- A host-package-backed selection that carries its own environment
binding and a local path. -/
def pkgBoundSel : Selection := ⟨"package:deb", some "/opt/pkg", [], [Binding.env bindP], []⟩

def c10Sels : List (String × Selection) := [("IP", pkgBoundSel)]

/-- A dependency referencing the host-package-backed selection. -/
def c10Dep : Dependency := ⟨"IP", [Binding.env bindP]⟩

/-!  Helper lemmas. -/

theorem startsWith_slash_ne_empty (s : String) (h : strStartsWith s "/" = true) :
    s ≠ "" := by
  intro he
  subst he
  exact absurd h (by decide)

theorem applyEvents_append (a b : List BindingEvent) (env : Env) :
    applyEvents (a ++ b) env = applyEvents b (applyEvents a env) := by
  induction a generalizing env with
  | nil => rfl
  | cons ev rest ih =>
    simp only [List.cons_append, applyEvents]
    exact ih (do_env_binding ev.1 ev.2 env)

theorem do_bindings_spec_events (stores : Stores) (impl : Selection)
    (bs : List Binding) (evs : List BindingEvent) (env : Env)
    (h : specEventsFor stores impl bs = Except.ok evs) :
    _do_bindings stores impl bs env = Except.ok (applyEvents evs env) := by
  induction bs generalizing evs env with
  | nil =>
    simp only [specEventsFor] at h
    injection h with h
    subst h
    rfl
  | cons b rest ih =>
    cases b with
    | env eb =>
      cases hp : _get_implementation_path stores impl with
      | error e =>
        simp only [specEventsFor, hp] at h
        exact Except.noConfusion h
      | ok p =>
        cases hr : specEventsFor stores impl rest with
        | error e =>
          simp only [specEventsFor, hp, hr] at h
          exact Except.noConfusion h
        | ok revs =>
          simp only [specEventsFor, hp, hr] at h
          injection h with h
          subst h
          simp only [_do_bindings, hp, applyEvents]
          exact ih revs (do_env_binding eb p env) hr
    | other k =>
      simp only [specEventsFor] at h
      simp only [_do_bindings]
      exact ih evs env h

theorem dep_bindings_spec_events (stores : Stores) (sels : List (String × Selection))
    (deps : List Dependency) (evs : List BindingEvent) (env : Env)
    (h : specDepEvents stores sels deps = Except.ok evs) :
    applyDepBindings stores sels deps env = Except.ok (applyEvents evs env) := by
  induction deps generalizing evs env with
  | nil =>
    simp only [specDepEvents] at h
    injection h with h
    subst h
    rfl
  | cons dep rest ih =>
    cases hl : lookupSel sels dep.interface with
    | error e =>
      simp only [specDepEvents, hl] at h
      exact Except.noConfusion h
    | ok dep_impl =>
      cases hpkg : strStartsWith dep_impl.id "package:" with
      | true =>
        simp only [specDepEvents, hl, hpkg, if_true] at h
        simp only [applyDepBindings, hl, hpkg, if_true]
        exact ih evs env h
      | false =>
        cases he : specEventsFor stores dep_impl dep.bindings with
        | error e =>
          simp only [specDepEvents, hl, hpkg, he] at h
          exact Except.noConfusion h
        | ok evsd =>
          cases hr : specDepEvents stores sels rest with
          | error e =>
            simp only [specDepEvents, hl, hpkg, he, hr] at h
            exact Except.noConfusion h
          | ok restEvs =>
            simp only [specDepEvents, hl, hpkg, he, hr] at h
            injection h with h
            subst h
            have hdb := do_bindings_spec_events stores dep_impl dep.bindings evsd env he
            simp only [applyDepBindings, hl, hpkg, hdb, applyEvents_append]
            exact ih restEvs (applyEvents evsd env) hr

theorem binding_pass_spec_events (stores : Stores) (sels : List (String × Selection))
    (items : List (String × Selection)) (evs : List BindingEvent) (env : Env)
    (h : specGeneralEvents stores sels items = Except.ok evs) :
    bindingPassAux stores sels items env = Except.ok (applyEvents evs env) := by
  induction items generalizing evs env with
  | nil =>
    simp only [specGeneralEvents] at h
    injection h with h
    subst h
    rfl
  | cons item rest ih =>
    cases ho : specEventsFor stores item.2 item.2.bindings with
    | error e =>
      simp only [specGeneralEvents, ho] at h
      exact Except.noConfusion h
    | ok own =>
      cases hd : specDepEvents stores sels item.2.dependencies with
      | error e =>
        simp only [specGeneralEvents, ho, hd] at h
        exact Except.noConfusion h
      | ok depEvs =>
        cases hr : specGeneralEvents stores sels rest with
        | error e =>
          simp only [specGeneralEvents, ho, hd, hr] at h
          exact Except.noConfusion h
        | ok restEvs =>
          simp only [specGeneralEvents, ho, hd, hr] at h
          injection h with h
          subst h
          have h1 := do_bindings_spec_events stores item.2 item.2.bindings own env ho
          have h2 := dep_bindings_spec_events stores sels item.2.dependencies depEvs
            (applyEvents own env) hd
          simp only [bindingPassAux, h1, h2, applyEvents_append]
          exact ih restEvs (applyEvents depEvs (applyEvents own env)) hr

/-!  Claim theorems. -/

/-- C1: for a non-host-package root selection, a `main` override beginning
with `/` has the marker stripped, and the program path is that stripped
main joined (with `os.path.join` semantics) onto the implementation root
returned by the path resolver, for every value of `command.path` that
passes the relative-path check — `command.path`'s directory is never
involved. -/
theorem c1_rooted_main_override (stores : Stores) (root_sel : Selection)
    (command_path : Option String) (m : String) (impl : String)
    (hpkg : strStartsWith root_sel.id "package:" = false)
    (hm : strStartsWith m "/" = true)
    (hcp : (pyTruthyO command_path && strStartsWith (strOfOpt command_path) "/") = false)
    (himpl : _get_implementation_path stores root_sel = Except.ok impl) :
    resolveProg stores root_sel command_path (some m) =
      Except.ok (some (String.drop m 1), some (ospath_join impl (String.drop m 1))) := by
  simp [resolveProg, hpkg, hcp, hm, himpl]

/-- C1 witness: root `sha1=abc` in `/store/abc` with `command.path` set to
`bin/run` and override `/scripts/alt` resolves to `/store/abc/scripts/alt`. -/
theorem c1_rooted_main_override_witness :
    resolveProg sampleStores storeSel (some "bin/run") (some "/scripts/alt") =
      Except.ok (some "scripts/alt", some "/store/abc/scripts/alt") :=
  Eq.trans
    (c1_rooted_main_override sampleStores storeSel (some "bin/run") "/scripts/alt"
      "/store/abc" (by decide) (by decide) (by decide) (by decide))
    (by decide)

/-- C3: a non-empty wrapper rewrites the plan to run `/bin/sh` with
argument vector `-c`, the wrapper text followed by ` "$@"`, `-`, the
resolved executable, and then the original arguments, in that order. -/
theorem c3_wrapper_rewrite (fs : FS) (root_sel : Selection) (m prog : String)
    (prog_args : List String) (w : String)
    (hw : w ≠ "")
    (hex : os_path_exists fs prog = true)
    (hsh : execl_ok fs "/bin/sh" = true) :
    finishLaunch fs root_sel (some m) (some prog) prog_args false (some w) =
      Except.ok (ExecOutcome.execed "/bin/sh"
        (["-c", w ++ " \"$@\"", "-", prog] ++ prog_args)) := by
  simp [finishLaunch, hex, hsh, pyTruthyO, pyTruthyS, strOfOpt, hw]

/-- C3 witness: wrapper `strace -f` around `/store/abc/bin/run --verbose`. -/
theorem c3_wrapper_rewrite_witness :
    finishLaunch sampleFS storeSel (some "bin/run") (some "/store/abc/bin/run")
        ["--verbose"] false (some "strace -f") =
      Except.ok (ExecOutcome.execed "/bin/sh"
        ["-c", "strace -f \"$@\"", "-", "/store/abc/bin/run", "--verbose"]) :=
  Eq.trans
    (c3_wrapper_rewrite sampleFS storeSel "bin/run" "/store/abc/bin/run" ["--verbose"]
      "strace -f" (by decide) (by decide) (by decide))
    (by decide)

/-- C4: for a non-host-package root whose `command.path` starts with `/`,
`execute_selections` fails with the invalid-command-path error, for every
filesystem (so before any existence check), every `main` override and
every wrapper. -/
theorem c4_absolute_command_path (fs : FS) (stores : Stores) (s : Selections)
    (prog_args : List String) (dry_run : Bool) (main wrapper : Option String)
    (env env1 env2 : Env) (root_sel : Selection) (cp : String)
    (h1 : bindingPass stores s.selections env = Except.ok env1)
    (h2 : lookupSel s.selections s.interface = Except.ok root_sel)
    (h3 : applyDepBindings stores s.selections s.command.requires env1 = Except.ok env2)
    (hpkg : strStartsWith root_sel.id "package:" = false)
    (hcp : s.command.path = some cp)
    (habs : strStartsWith cp "/" = true) :
    execute_selections fs stores s prog_args dry_run main wrapper env =
      Except.error (RunError.invalidCommandPath cp) := by
  have hne : cp ≠ "" := startsWith_slash_ne_empty cp habs
  simp [execute_selections, h1, h2, h3, resolveProg, hpkg, hcp, strOfOpt,
    pyTruthyO, pyTruthyS, habs, hne]

/-- C4 witness: `command.path = "/bin/run"` fails for an arbitrary
filesystem, main override and wrapper. -/
theorem c4_absolute_command_path_witness :
    execute_selections ⟨[], []⟩ sampleStores absCommandSelections [] false
        (some "alt") (some "strace") [] =
      Except.error (RunError.invalidCommandPath "/bin/run") :=
  c4_absolute_command_path ⟨[], []⟩ sampleStores absCommandSelections [] false
    (some "alt") (some "strace") [] [] [] storeSel "/bin/run"
    (by decide) (by decide) (by decide) (by decide) (by decide) (by decide)

/-- C6 (amended): for a host-package root, the planned executable equals
`main` when the override is supplied and non-empty, and `command.path`
when the override is absent or empty — taken literally, with no joining
(the store parameter is arbitrary and unused). -/
theorem c6_host_package_literal (stores : Stores) (root_sel : Selection)
    (command_path : Option String)
    (hpkg : strStartsWith root_sel.id "package:" = true) :
    (∀ m : String, m ≠ "" →
        resolveProg stores root_sel command_path (some m) =
          Except.ok (some m, some m)) ∧
    resolveProg stores root_sel command_path none =
      Except.ok (command_path, command_path) ∧
    resolveProg stores root_sel command_path (some "") =
      Except.ok (command_path, command_path) := by
  refine ⟨?_, ?_, ?_⟩
  · intro m hm
    simp [resolveProg, hpkg, pyOr, pyTruthyO, pyTruthyS, hm]
  · simp [resolveProg, hpkg, pyOr, pyTruthyO]
  · simp [resolveProg, hpkg, pyOr, pyTruthyO, pyTruthyS]

/-- C6 counterexample: with an empty-string `main` override (a supplied
override), the planned executable is `command.path`, not the override:
Python `main or command_path` treats the empty string as absent. -/
theorem c6_empty_override_counterexample :
    resolveProg [] pkgSel (some "bin/run") (some "") =
      Except.ok (some "bin/run", some "bin/run") ∧
    (some "bin/run" : Option String) ≠ some "" := by
  decide

/-- C6 witness: a non-empty override wins; an absent override falls back to
`command.path`. -/
theorem c6_host_package_literal_witness :
    resolveProg [] pkgSel (some "bin/run") (some "firefox") =
      Except.ok (some "firefox", some "firefox") ∧
    resolveProg [] pkgSel (some "bin/run") none =
      Except.ok (some "bin/run", some "bin/run") :=
  ⟨(c6_host_package_literal [] pkgSel (some "bin/run") (by decide)).1 "firefox"
      (by decide),
   (c6_host_package_literal [] pkgSel (some "bin/run") (by decide)).2.1⟩

/-- C7 (amended): path resolution returns `local_path` whenever it is
present and non-empty (for every store, so no lookup is involved), and it
equals the digest store lookup when `local_path` is absent or empty. -/
theorem c7_local_path_nonempty_wins (stores : Stores) (impl : Selection) :
    (∀ p : String, impl.local_path = some p → p ≠ "" →
        _get_implementation_path stores impl = Except.ok p) ∧
    ((impl.local_path = none ∨ impl.local_path = some "") →
        _get_implementation_path stores impl = lookup_any stores impl.digests) := by
  constructor
  · intro p hp hne
    simp [_get_implementation_path, hp, pyTruthyS, hne]
  · intro h
    rcases h with h | h <;> simp [_get_implementation_path, h, pyTruthyS]

/-- C7 counterexample: a present-but-empty `local_path` does not win; Python
`impl.local_path or lookup` falls through to the store lookup on the empty
string. -/
theorem c7_empty_local_path_counterexample :
    _get_implementation_path sampleStores emptyLocalSel = Except.ok "/store/abc" ∧
    (Except.ok "/store/abc" : Except RunError String) ≠ Except.ok "" := by
  decide

/-- C7 witness: a non-empty `local_path` wins even against an empty store;
with no `local_path` the result is the store lookup. -/
theorem c7_local_path_nonempty_wins_witness :
    _get_implementation_path [] localSel = Except.ok "/dev/proj" ∧
    _get_implementation_path sampleStores storeSel =
      lookup_any sampleStores storeSel.digests :=
  ⟨(c7_local_path_nonempty_wins [] localSel).1 "/dev/proj" rfl (by decide),
   (c7_local_path_nonempty_wins sampleStores storeSel).2 (Or.inl rfl)⟩

/-- C8: when `command.path` and the `main` override are both absent,
`execute_selections` fails with the not-executable error, for every
filesystem (so before any existence check) and every wrapper. -/
theorem c8_no_main_not_executable (fs : FS) (stores : Stores) (s : Selections)
    (prog_args : List String) (dry_run : Bool) (wrapper : Option String)
    (env env1 env2 : Env) (root_sel : Selection)
    (h1 : bindingPass stores s.selections env = Except.ok env1)
    (h2 : lookupSel s.selections s.interface = Except.ok root_sel)
    (h3 : applyDepBindings stores s.selections s.command.requires env1 = Except.ok env2)
    (hcp : s.command.path = none) :
    execute_selections fs stores s prog_args dry_run none wrapper env =
      Except.error (RunError.notExecutable root_sel.id) := by
  cases hpkg : strStartsWith root_sel.id "package:" with
  | true =>
    simp [execute_selections, h1, h2, h3, resolveProg, hpkg, hcp, pyOr,
      pyTruthyO, finishLaunch]
  | false =>
    simp [execute_selections, h1, h2, h3, resolveProg, hpkg, hcp, pyOr,
      pyTruthyO, finishLaunch]

/-- C2: `test_selections` returns the captured child output as a plain
string (so the parent returns normally and no child failure propagates):
an `execute_selections` failure inside the child comes back as captured
traceback text plus the appended status line, and in general the
explanatory line is appended exactly when the child's exit status
(`code mod 256`) is non-zero. -/
theorem c2_test_harness_captures (w : ProgBehavior) (fs : FS) (stores : Stores)
    (s : Selections) (prog_args : List String) (dry_run : Bool)
    (main wrapper : Option String) (env : Env) :
    (∀ e : RunError,
        execute_selections fs stores s prog_args dry_run main none env =
          Except.error e →
        test_selections w fs stores s prog_args dry_run main wrapper env =
          traceback_text e ++ errLine 256) ∧
    (∀ out : String, ∀ code : Nat,
        childRun w fs stores s prog_args dry_run main env = (out, code) →
        (code % 256 ≠ 0 →
            test_selections w fs stores s prog_args dry_run main wrapper env =
              out ++ errLine (waitStatus code)) ∧
        (code % 256 = 0 →
            test_selections w fs stores s prog_args dry_run main wrapper env = out)) := by
  constructor
  · intro e he
    simp [test_selections, childRun, he, waitStatus, errLine]
  · intro out code hc
    constructor
    · intro hns
      have hnz : waitStatus code ≠ 0 := by
        simp only [waitStatus]
        exact Nat.mul_ne_zero hns (by decide)
      simp [test_selections, hc, hnz]
    · intro hz
      have hzz : waitStatus code = 0 := by
        simp [waitStatus, hz]
      simp [test_selections, hc, hzz]

/-- C2 witness: a child whose launch fails with the not-executable error
produces the traceback text plus the appended status line. -/
theorem c2_test_harness_captures_witness :
    test_selections wDefault sampleFS sampleStores noCommandSelections [] false
        none none [] =
      traceback_text (RunError.notExecutable "sha1=abc") ++ errLine 256 :=
  (c2_test_harness_captures wDefault sampleFS sampleStores noCommandSelections []
      false none none []).1 (RunError.notExecutable "sha1=abc") (by decide)

/-- C9: whenever the pipeline does not replace the child's process image
(any failure, and also a fully successful dry run), the child exits with
status 1, so the captured output always carries the appended
`Error from child process` line with wait status 256. -/
theorem c9_child_always_exits_one (w : ProgBehavior) (fs : FS) (stores : Stores)
    (s : Selections) (prog_args : List String) (dry_run : Bool)
    (main wrapper : Option String) (env : Env)
    (h : isExeced (execute_selections fs stores s prog_args dry_run main none env)
      = false) :
    (childRun w fs stores s prog_args dry_run main env).2 = 1 ∧
    test_selections w fs stores s prog_args dry_run main wrapper env =
      (childRun w fs stores s prog_args dry_run main env).1 ++ errLine 256 := by
  cases hres : execute_selections fs stores s prog_args dry_run main none env with
  | error e =>
    constructor
    · simp [childRun, hres]
    · simp [test_selections, childRun, hres, waitStatus]
  | ok pr =>
    rcases pr with ⟨env', outcome⟩
    cases outcome with
    | execed p as =>
      rw [hres] at h
      exact absurd h (by simp [isExeced])
    | driedRun msg =>
      constructor
      · simp [childRun, hres]
      · simp [test_selections, childRun, hres, waitStatus]

/-- C9 witness: a fully successful dry run still yields child exit status 1
and the appended error line. -/
theorem c9_child_always_exits_one_witness :
    (childRun wDefault sampleFS sampleStores sampleSelections [] true none []).2 = 1 ∧
    test_selections wDefault sampleFS sampleStores sampleSelections [] true none
        none [] =
      (childRun wDefault sampleFS sampleStores sampleSelections [] true none []).1
        ++ errLine 256 :=
  c9_child_always_exits_one wDefault sampleFS sampleStores sampleSelections [] true
    none none [] (by decide)

/-- C8 witness: no command path and no override, on an arbitrary filesystem. -/
theorem c8_no_main_not_executable_witness :
    execute_selections ⟨[], []⟩ sampleStores noCommandSelections [] false none none [] =
      Except.error (RunError.notExecutable "sha1=abc") :=
  c8_no_main_not_executable ⟨[], []⟩ sampleStores noCommandSelections [] false none
    [] [] [] storeSel (by decide) (by decide) (by decide) (by decide)

/-- C5: the two binding phases of `execute_selections` (general pass, then
the command's requirement list) perform exactly the applications the spec
describes: each selection's own bindings against its own resolved path,
then its dependencies' bindings against the dependencies' resolved paths
with `package:`-prefixed dependencies skipped, then the same dependency
rule once more over the root command's requirement list. -/
theorem c5_binding_pass_refines_spec (stores : Stores) (s : Selections) (env : Env)
    (evs : List BindingEvent)
    (h : specBindingEvents stores s = Except.ok evs) :
    fullBindingPhase stores s env = Except.ok (applyEvents evs env) := by
  cases hg : specGeneralEvents stores s.selections s.selections with
  | error e =>
    simp only [specBindingEvents, hg] at h
    exact Except.noConfusion h
  | ok general =>
    cases hc : specDepEvents stores s.selections s.command.requires with
    | error e =>
      simp only [specBindingEvents, hg, hc] at h
      exact Except.noConfusion h
    | ok cmdEvs =>
      simp only [specBindingEvents, hg, hc] at h
      injection h with h
      subst h
      have h1 := binding_pass_spec_events stores s.selections s.selections general env hg
      have h2 := dep_bindings_spec_events stores s.selections s.command.requires
        cmdEvs (applyEvents general env) hc
      simp only [fullBindingPhase, bindingPass, h1, h2, applyEvents_append]

/-- C5 witness: a resolution with an own binding on the root, a skipped
`package:` dependency, a store-backed dependency binding, and a
command-requirement binding. -/
theorem c5_binding_pass_refines_spec_witness :
    fullBindingPhase c5Stores c5Selections [] =
      Except.ok (applyEvents
        [(bindA, "/loc/a"), (bindC, "/store/ccc"), (bindR, "/store/ccc")] []) :=
  c5_binding_pass_refines_spec c5Stores c5Selections []
    [(bindA, "/loc/a"), (bindC, "/store/ccc"), (bindR, "/store/ccc")] (by decide)

/-- C10: in the general pass, a selection whose id starts with `package:`
still has its own environment binding applied, against the path the
resolver returns for it (local path or digest lookup); the `package:` skip
fires only when the same selection is reached as a dependency. -/
theorem c10_package_own_bindings_applied (stores : Stores)
    (sels : List (String × Selection)) (k : String) (sel : Selection)
    (rest : List (String × Selection)) (env : Env)
    (eb : EnvironmentBinding) (p : String)
    (hid : strStartsWith sel.id "package:" = true)
    (hb : sel.bindings = [Binding.env eb])
    (hd : sel.dependencies = [])
    (hp : _get_implementation_path stores sel = Except.ok p) :
    bindingPassAux stores sels ((k, sel) :: rest) env =
      bindingPassAux stores sels rest (do_env_binding eb p env) ∧
    (∀ dep : Dependency, lookupSel sels dep.interface = Except.ok sel →
        applyDepBindings stores sels [dep] env = Except.ok env) := by
  constructor
  · simp only [bindingPassAux, hb, hd, _do_bindings, hp, applyDepBindings]
  · intro dep hdep
    simp [applyDepBindings, hdep, hid]

/-- C10 witness: a host-package-backed selection with its own binding and a
local path gets that binding applied against the resolved path in the
general pass, while a dependency on it is skipped. -/
theorem c10_package_own_bindings_applied_witness :
    bindingPassAux [] c10Sels [("IP", pkgBoundSel)] [] =
      bindingPassAux [] c10Sels [] (do_env_binding bindP "/opt/pkg" []) ∧
    applyDepBindings [] c10Sels [c10Dep] [] = Except.ok [] :=
  ⟨(c10_package_own_bindings_applied [] c10Sels "IP" pkgBoundSel [] [] bindP "/opt/pkg"
      (by decide) (by decide) (by decide) (by decide)).1,
   (c10_package_own_bindings_applied [] c10Sels "IP" pkgBoundSel [] [] bindP "/opt/pkg"
      (by decide) (by decide) (by decide) (by decide)).2 c10Dep (by decide)⟩
